import Mathlib

/-!
Verification development for the win_event_engine repository.

Shallow embedding of the engine pipeline: the event model in
`engine_core/src/event.rs`, the rule matchers in `rules/src/lib.rs`, the
action executor in `actions/src/lib.rs`, the script sandbox in
`actions/src/script_action.rs`, the metrics collector in
`metrics/src/lib.rs`, and the supervisor wiring in
`engine/src/engine.rs`.  Rust `PathBuf` values are modelled by the
observations the code performs on them; the external `glob` crate
pattern is modelled as its matching predicate.
-/

namespace WinEventEngine

/-- Model of an OS string component (`std::ffi::OsStr`): the only
observation the code makes is `to_str`, which yields the UTF-8 string
form when the component is valid UTF-8 and `None` otherwise. -/
structure OsStrM where
  toStr : Option String
deriving DecidableEq, Repr

/-- Model of `std::path::PathBuf` by the observations used in
`rules/src/lib.rs`: `to_str` (the full string form when the path is
valid UTF-8) and `file_name` (the final component, when present).
`PathBuf` equality in the source is modelled by structural equality. -/
structure OsPathM where
  toStr : Option String
  fileName : Option OsStrM
deriving DecidableEq, Repr

/-- `RegistryChangeType` from `engine_core/src/event.rs`. -/
inductive RegistryChangeType where
  | created
  | modified
  | deleted
deriving DecidableEq, Repr

/-- `NetworkProtocol` from `engine_core/src/event.rs`. -/
inductive NetworkProtocol where
  | tcp
  | udp
  | other (s : String)
deriving DecidableEq, Repr

/-- `EventKind` from `engine_core/src/event.rs`, the full closed set of
variants.  Machine integers (`u32`, `u64`, `u16`, `isize`) are modelled
as `Nat`/`Int`; no arithmetic is performed on them by the code under
verification. -/
inductive EventKind where
  | fileCreated (path : OsPathM)
  | fileModified (path : OsPathM)
  | fileDeleted (path : OsPathM)
  | fileRenamed (oldPath newPath : OsPathM)
  | windowCreated (hwnd : Int) (title : String) (processId : Nat)
  | windowDestroyed (hwnd : Int)
  | windowFocused (hwnd : Int) (title : String)
  | windowUnfocused (hwnd : Int) (title : String)
  | processStarted (pid parentPid : Nat) (name path commandLine : String)
      (sessionId : Nat) (user : String)
  | processStopped (pid : Nat) (name : String) (exitCode : Option Nat)
  | threadCreated (pid tid : Nat) (startAddress : Nat) (userStack : Option String)
  | threadDestroyed (pid tid : Nat)
  | fileAccessed (pid : Nat) (path : OsPathM) (accessMask : Nat)
  | fileIoRead (pid : Nat) (path : OsPathM) (bytesRead : Nat)
  | fileIoWrite (pid : Nat) (path : OsPathM) (bytesWritten : Nat)
  | fileIoDelete (pid : Nat) (path : OsPathM)
  | networkConnectionCreated (pid : Nat) (localAddr : String) (localPort : Nat)
      (remoteAddr : String) (remotePort : Nat) (protocol : NetworkProtocol)
  | networkConnectionClosed (pid : Nat) (localAddr : String) (localPort : Nat)
      (remoteAddr : String) (remotePort : Nat)
  | registryChanged (root key : String) (valueName : Option String)
      (changeType : RegistryChangeType)
  | timerTick
deriving DecidableEq, Repr

/-- The variant discriminant of an `EventKind` (the position of the
variant in the declaration).  Specification-side helper used to state
claims about matching "by kind discriminant". -/
def EventKind.discriminant : EventKind → Nat
  | .fileCreated _ => 0
  | .fileModified _ => 1
  | .fileDeleted _ => 2
  | .fileRenamed _ _ => 3
  | .windowCreated _ _ _ => 4
  | .windowDestroyed _ => 5
  | .windowFocused _ _ => 6
  | .windowUnfocused _ _ => 7
  | .processStarted _ _ _ _ _ _ _ => 8
  | .processStopped _ _ _ => 9
  | .threadCreated _ _ _ _ => 10
  | .threadDestroyed _ _ => 11
  | .fileAccessed _ _ _ => 12
  | .fileIoRead _ _ _ => 13
  | .fileIoWrite _ _ _ => 14
  | .fileIoDelete _ _ => 15
  | .networkConnectionCreated _ _ _ _ _ _ => 16
  | .networkConnectionClosed _ _ _ _ _ => 17
  | .registryChanged _ _ _ _ => 18
  | .timerTick => 19

/-- `Event` from `engine_core/src/event.rs`.  The UUID is modelled as a
`Nat` tag and the monotonic timestamp as a `Nat`; the code under
verification never inspects either beyond identity. -/
structure Event where
  id : Nat
  timestamp : Nat
  kind : EventKind
  source : String
  metadata : List (String × String)
deriving DecidableEq, Repr

/-- `matches_event_kind` from `rules/src/lib.rs` (lines 330-342),
translated arm by arm; the final catch-all arm returns `false`. -/
def matchesEventKind (expected actual : EventKind) : Bool :=
  match expected, actual with
  | .timerTick, .timerTick => true
  | .fileCreated p1, .fileCreated p2 => p1 == p2
  | .fileModified p1, .fileModified p2 => p1 == p2
  | .fileDeleted p1, .fileDeleted p2 => p1 == p2
  | .windowFocused _ _, .windowFocused _ _ => true
  | .windowUnfocused _ _, .windowUnfocused _ _ => true
  | .windowCreated _ _ _, .windowCreated _ _ _ => true
  | .windowDestroyed _, .windowDestroyed _ => true
  | _, _ => false

/-- `EventKindMatcher` from `rules/src/lib.rs`. -/
structure EventKindMatcher where
  kind : EventKind

/-- `EventKindMatcher::matches` from `rules/src/lib.rs`. -/
def EventKindMatcher.matches (m : EventKindMatcher) (event : Event) : Bool :=
  matchesEventKind m.kind event.kind

/-- Model of `glob::Pattern` (external crate): a compiled glob is
observed only through its matching predicate on strings (the
`Pattern::matches` method, field `matchesStr` here). -/
structure GlobPattern where
  matchesStr : String → Bool

/-- `FileEventType` from `rules/src/lib.rs`. -/
inductive FileEventType where
  | created
  | modified
  | deleted
  | any
deriving DecidableEq, Repr

/-- `FilePatternMatcher` from `rules/src/lib.rs`. -/
structure FilePatternMatcher where
  eventType : FileEventType
  pathPattern : Option GlobPattern
  filePattern : Option GlobPattern

/-- The path-glob check inside `FilePatternMatcher::matches`
(`rules/src/lib.rs` lines 203-209): when a path pattern is configured,
the pattern is consulted only if `path.to_str()` is `Some`; a non-UTF-8
path skips the check entirely (the `if let` body is not entered). -/
def FilePatternMatcher.pathCheck (m : FilePatternMatcher) (path : OsPathM) : Bool :=
  match m.pathPattern with
  | none => true
  | some pattern =>
    match path.toStr with
    | none => true
    | some pathStr => pattern.matchesStr pathStr

/-- The filename-glob check inside `FilePatternMatcher::matches`
(`rules/src/lib.rs` lines 211-219): the pattern is consulted only if
`path.file_name()` is `Some` and the component converts to UTF-8;
otherwise the check is skipped. -/
def FilePatternMatcher.fileCheck (m : FilePatternMatcher) (path : OsPathM) : Bool :=
  match m.filePattern with
  | none => true
  | some pattern =>
    match path.fileName with
    | none => true
    | some filename =>
      match filename.toStr with
      | none => true
      | some name => pattern.matchesStr name

/-- The body of `FilePatternMatcher::matches` after the event kind has
been destructured (`rules/src/lib.rs` lines 199-221): the event-type
guard followed by the two glob checks. -/
def FilePatternMatcher.matchesFile (m : FilePatternMatcher)
    (eventType : FileEventType) (path : OsPathM) : Bool :=
  if m.eventType ≠ .any ∧ m.eventType ≠ eventType then false
  else m.pathCheck path && m.fileCheck path

/-- `FilePatternMatcher::matches` from `rules/src/lib.rs` (lines
190-222): extract the file event type and path from the event kind
(non-file kinds return `false`), compare the event type, then run the
path and filename glob checks. -/
def FilePatternMatcher.matches (m : FilePatternMatcher) (event : Event) : Bool :=
  match event.kind with
  | .fileCreated path => m.matchesFile .created path
  | .fileModified path => m.matchesFile .modified path
  | .fileDeleted path => m.matchesFile .deleted path
  | _ => false

/-- `ActionResult` from `actions/src/lib.rs`. -/
inductive ActionResult where
  | success (message : Option String)
  | skipped (reason : String)
deriving DecidableEq, Repr

/-- `ActionError` from `actions/src/lib.rs`. -/
inductive ActionError where
  | execution (msg : String)
  | configuration (msg : String)
  | timeout
deriving DecidableEq, Repr

/-- `ErrorBehavior` from `actions/src/lib.rs`. -/
inductive ErrorBehavior where
  | continue_
  | stop
  | skipRemaining
deriving DecidableEq, Repr

/-- The loop of `CompositeAction::execute` (`actions/src/lib.rs` lines
300-318), over the outcomes the child actions produce for the event.
`count` is the length of the `results` accumulator, the only
observation the loop makes of it.  After the loop, the composite
returns `Success` with a message summarizing how many child results
were collected. -/
def compositeLoop (onError : ErrorBehavior) (count : Nat) :
    List (Except ActionError ActionResult) → Except ActionError ActionResult
  | [] => .ok (.success (some s!"Executed {count} actions"))
  | .ok _ :: rest => compositeLoop onError (count + 1) rest
  | .error e :: rest =>
    match onError with
    | .continue_ => compositeLoop onError count rest
    | .stop => .error e
    | .skipRemaining => .ok (.success (some s!"Executed {count} actions"))

/-- `CompositeAction` from `actions/src/lib.rs`: the polymorphic child
actions (`Vec<Box<dyn Action>>`) are modelled by their behaviour, a
function from the event to the child's outcome. -/
structure CompositeAction where
  actions : List (Event → Except ActionError ActionResult)
  onError : ErrorBehavior

/-- `CompositeAction::execute` from `actions/src/lib.rs` (lines
299-319). -/
def CompositeAction.execute (c : CompositeAction) (event : Event) :
    Except ActionError ActionResult :=
  compositeLoop c.onError 0 (c.actions.map (fun a => a event))

/-- Model of an `mlua::Value`.  Host-created tables and functions
(the capability tables the sandbox installs) are represented by a
string tag; a script-returned table is represented by its field list
(`table.get` walks it). -/
inductive LuaValue where
  | nil
  | boolean (b : Bool)
  | integer (n : Int)
  | number
  | str (s : String)
  | table (fields : List (String × LuaValue))
  | hostTable (tag : String)
  | hostFunction (tag : String)

/-- The Lua globals table, as an association list; `raw_set` updates
the binding in place or appends a new one. -/
abbrev LuaGlobals := List (String × LuaValue)

/-- `Table::raw_set` on the globals table. -/
def rawSet (g : LuaGlobals) (key : String) (v : LuaValue) : LuaGlobals :=
  match g with
  | [] => [(key, v)]
  | (k, w) :: rest => if k = key then (k, v) :: rest else (k, w) :: rawSet rest key v

/-- `Table::get` / `raw_get` on the globals table: an absent key reads
as `nil`. -/
def rawGet (g : LuaGlobals) (key : String) : LuaValue :=
  match g with
  | [] => .nil
  | (k, v) :: rest => if k = key then v else rawGet rest key

/-- `ScriptAction::setup_sandbox` from `actions/src/script_action.rs`,
restricted to its effect on the globals table.  Lines 166-172 bind the
dangerous globals to `Nil`; lines 492-497 install the host capability
tables (`log`, `exec`, `http`, `json`, `fs`, and the restricted `os`
date/time table) built in between.  The host tables themselves are
modelled as tagged host values. -/
def setupSandbox (g : LuaGlobals) : LuaGlobals :=
  let g := rawSet g "dofile" .nil
  let g := rawSet g "loadfile" .nil
  let g := rawSet g "load" .nil
  let g := rawSet g "require" .nil
  let g := rawSet g "io" .nil
  let g := rawSet g "os" .nil
  let g := rawSet g "debug" .nil
  let g := rawSet g "log" (.hostTable "log_api")
  let g := rawSet g "exec" (.hostFunction "exec_api")
  let g := rawSet g "http" (.hostTable "http_api")
  let g := rawSet g "json" (.hostTable "json_api")
  let g := rawSet g "fs" (.hostTable "fs_api")
  let g := rawSet g "os" (.hostTable "os_restricted_api")
  g

/-- The globals table of the fresh per-execution Lua VM at the moment
the user script is loaded: `ScriptAction::execute` creates `Lua::new()`
(initial globals `g0`), runs `setup_sandbox`, and only then loads the
script source (`actions/src/script_action.rs` lines 622-629). -/
def scriptVmGlobalsAtLoad (g0 : LuaGlobals) : LuaGlobals :=
  setupSandbox g0

/-- `ScriptErrorBehavior` from `actions/src/script_action.rs`. -/
inductive ScriptErrorBehavior where
  | fail
  | continue_
  | log
deriving DecidableEq, Repr

/-- mlua's `FromLua` conversion to `bool`: Lua truthiness; it never
fails.  Used by `table.get::<_, bool>("success")`. -/
def luaToBool : LuaValue → Bool
  | .nil => false
  | .boolean b => b
  | _ => true

/-- mlua's `FromLua` conversion to `String`: succeeds on strings (and
coerces numbers to their decimal form); fails on other values.  Used by
`table.get::<_, String>("message")`. -/
def luaToString : LuaValue → Option String
  | .str s => some s
  | .integer n => some (toString n)
  | .number => some "" -- float formatting abstracted; unused by the claims
  | _ => none

/-- Field lookup on a script-returned table (`Table::get`): an absent
field reads as `nil`. -/
def tableGetField (fields : List (String × LuaValue)) (key : String) : LuaValue :=
  match fields with
  | [] => .nil
  | (k, v) :: rest => if k = key then v else tableGetField rest key

/-- The result-interpretation tail of `ScriptAction::execute`
(`actions/src/script_action.rs` lines 650-704), applied to the outcome
of calling the entry function.  On `Ok`, `success` starts `true` and
`message` empty; only if the returned value is a table are they
re-assigned from the `success` and `message` fields (the boolean `get`
always succeeds by Lua truthiness, the string `get` only for
convertible values).  On success with an empty message the action
returns `Success` with no message. -/
def scriptInterpretResult (onError : ScriptErrorBehavior)
    (result : Except String LuaValue) : Except ActionError ActionResult :=
  match result with
  | .ok value =>
    let success :=
      match value with
      | .table fields => luaToBool (tableGetField fields "success")
      | _ => true
    let message :=
      match value with
      | .table fields =>
        match luaToString (tableGetField fields "message") with
        | some m => m
        | none => ""
      | _ => ""
    if success then
      if message = "" then .ok (.success none)
      else .ok (.success (some message))
    else
      match onError with
      | .fail => .error (.execution s!"Script returned failure: {message}")
      | .continue_ => .ok (.success (some s!"Failed but continuing: {message}"))
      | .log => .ok (.success (some s!"Failed but continuing: {message}"))
  | .error e =>
    let errorMsg := s!"Lua execution error: {e}"
    match onError with
    | .fail => .error (.execution errorMsg)
    | .continue_ => .ok (.success (some s!"Error but continuing: {errorMsg}"))
    | .log => .ok (.success (some s!"Error but continuing: {errorMsg}"))

/-- Model of a `std::path::Path` as used by `is_path_allowed`
(`actions/src/script_action.rs`): whether the path has a root, and its
normal components.  `Path::starts_with` compares component prefixes and
only holds when both sides agree on having a root; `Path::is_relative`
is the absence of a root. -/
structure FsPath where
  absolute : Bool
  components : List String
deriving DecidableEq, Repr

/-- `Path::starts_with`. -/
def FsPath.startsWith (p base : FsPath) : Bool :=
  p.absolute == base.absolute && base.components.isPrefixOf p.components

/-- `Path::is_relative`. -/
def FsPath.isRelative (p : FsPath) : Bool :=
  !p.absolute

/-- `is_path_allowed` from `actions/src/script_action.rs` (lines
731-753).  `allowedDirs` models the `allowed_dirs` vector: the current
working directory, the temp directory, and the user documents
directory, each an `Option` (the `.flatten()` skips absent entries).
The loop returns `true` on the first allow-listed root the path starts
with; afterwards any relative path is allowed; otherwise `false`. -/
def isPathAllowed (allowedDirs : List (Option FsPath)) (path : FsPath) : Bool :=
  if (allowedDirs.filterMap id).any (fun allowed => path.startsWith allowed) then true
  else if path.isRelative then true
  else false

/-- The `fs.delete` sandbox function from `actions/src/script_action.rs`
(lines 450-469), modelled as the returned boolean together with whether
the `fs::remove_file` call was reached.  `removeOk` stands for the
outcome of the OS call when it is attempted. -/
def fsDelete (allowedDirs : List (Option FsPath)) (path : FsPath)
    (removeOk : Bool) : Bool × Bool :=
  if !isPathAllowed allowedDirs path then (false, false)
  else (removeOk, true)

/-- The `fs.move` sandbox function from `actions/src/script_action.rs`
(lines 428-447): both source and destination must pass the allow-list
check before `fs::rename` is attempted.  Result is the returned boolean
together with whether the rename call was reached. -/
def fsMove (allowedDirs : List (Option FsPath)) (source dest : FsPath)
    (renameOk : Bool) : Bool × Bool :=
  if !isPathAllowed allowedDirs source || !isPathAllowed allowedDirs dest then (false, false)
  else (renameOk, true)

/-- Metrics counter state from `metrics/src/lib.rs`: the `counters`
map, keyed by the canonical storage key, modelled as an association
list. -/
abbrev CounterState := List (String × Nat)

/-- Read a counter's current value (`MetricsCollector::get_counter`
after key construction). -/
def counterValue (m : CounterState) (key : String) : Option Nat :=
  match m with
  | [] => none
  | (k, v) :: rest => if k = key then some v else counterValue rest key

/-- The label-formatting step of `MetricsCollector::build_key`: each
label pair becomes the string `k=v`. -/
def fmtLabel (kv : String × String) : String :=
  kv.1 ++ "=" ++ kv.2

/-- Lexicographic strict comparison of character lists: the order
`Vec::sort` uses on `String`s (ascending `Ord`), modelled on the
character sequence. -/
def charListLt : List Char → List Char → Bool
  | [], [] => false
  | [], _ :: _ => true
  | _ :: _, [] => false
  | a :: as_, b :: bs =>
    if a < b then true
    else if b < a then false
    else charListLt as_ bs

/-- Non-strict string comparison used to model the ascending sort of
the formatted label parts. -/
def strLeB (a b : String) : Bool :=
  a == b || charListLt a.data b.data

/-- Insertion into a sorted list under a boolean "stays in
front" test: used to model `Vec::sort`. -/
def insertLe {α : Type} (le : α → α → Bool) (a : α) : List α → List α
  | [] => [a]
  | b :: bs => if le a b then a :: b :: bs else b :: insertLe le a bs

/-- Insertion sort under a boolean comparison, modelling `Vec::sort`
(ascending by `Ord`). -/
def sortLe {α : Type} (le : α → α → Bool) : List α → List α
  | [] => []
  | a :: as_ => insertLe le a (sortLe le as_)

/-- `MetricsCollector::build_key` from `metrics/src/lib.rs` (lines
298-309): the bare name when there are no labels, otherwise
`name:` followed by the formatted `k=v` parts, sorted as strings and
joined by commas inside braces. -/
def buildKey (name : String) (labels : List (String × String)) : String :=
  if labels.isEmpty then name
  else
    name ++ ":\x7b" ++ ",".intercalate (sortLe strLeB (labels.map fmtLabel)) ++ "\x7d"

/-- Helper for `incrementCounter`: update the association list at the
given canonical key. -/
def incrementKey (m : CounterState) (key : String) (value : Nat) : CounterState :=
  match m with
  | [] => [(key, value)]
  | (k, v) :: rest => if k = key then (k, v + value) :: rest else (k, v) :: incrementKey rest key value

/-- `MetricsCollector::increment_counter` from `metrics/src/lib.rs`
(lines 312-331), restricted to the authoritative counter map: add to
the counter under the canonical key, inserting it at `value` when
absent. -/
def incrementCounter (m : CounterState) (name : String)
    (labels : List (String × String)) (value : Nat) : CounterState :=
  incrementKey m (buildKey name labels) value

/-- `record_event_dropped` from `metrics/src/lib.rs` (lines 662-664):
increment `events_dropped_total` (no labels) by one. -/
def recordEventDropped (m : CounterState) : CounterState :=
  incrementCounter m "events_dropped_total" [] 1

/-- The bounded event bus (`bus/src/lib.rs`: a tokio mpsc channel of
the configured capacity), observed as its capacity and queued
contents. -/
structure EventBus where
  capacity : Nat
  queued : List Event
deriving DecidableEq, Repr

/-- `Sender::try_send` on the bounded bus: enqueue and report success
when there is room, otherwise leave the bus unchanged and report a full
buffer. -/
def trySend (b : EventBus) (e : Event) : EventBus × Bool :=
  if b.queued.length < b.capacity then ({ b with queued := b.queued ++ [e] }, true)
  else (b, false)

/-- The per-event emit step of the file watcher callback
(`engine/src/plugins/file_watcher.rs` lines 151-153): `try_send` the
event; on a full-buffer error the callback only logs
"Failed to send event" — the metrics state is not touched.  Returns the
bus, the (unchanged) counter state, and whether the event was
dropped. -/
def fileWatcherEmit (b : EventBus) (m : CounterState) (e : Event) :
    EventBus × CounterState × Bool :=
  match trySend b e with
  | (b1, true) => (b1, m, false)
  | (b1, false) => (b1, m, true)

/-- A rule configuration as consumed by the engine supervisor
(`engine/src/config.rs` `RuleConfig`): the trigger is modelled by the
matcher `Engine::create_rule` builds from it, and the action by an
abstract identifier for the `ActionConfig` the rule carries. -/
structure RuleConfigM where
  name : String
  enabled : Bool
  trigger : Event → Bool
  action : Nat

/-- The engine configuration (`engine/src/config.rs` `Config`),
restricted to what validation and initialization observe: source names
and rule configurations. -/
structure ConfigM where
  sourceNames : List String
  rules : List RuleConfigM

/-- `Config::validate` from `engine/src/config.rs` (lines 233-253):
every rule name non-empty and source names pairwise distinct. -/
def ConfigM.validate (c : ConfigM) : Bool :=
  c.rules.all (fun r => r.name ≠ "") && c.sourceNames.Nodup

/-- An active rule as built by `Engine::create_rule`
(`engine/src/engine.rs` lines 236-323): name, matcher, and the enabled
flag copied from the configuration. -/
structure ActiveRule where
  name : String
  matcher : Event → Bool
  enabled : Bool

/-- `Engine::initialize_rules` from `engine/src/engine.rs` (lines
218-234): rule configs with `enabled = false` are skipped with
`continue`; the remaining configs are turned into rules in order.  The
active rule list therefore contains only the enabled rules, indexed by
their position in the filtered list. -/
def initializeRules (rules : List RuleConfigM) : List ActiveRule :=
  (rules.filter (fun rc => rc.enabled)).map
    (fun rc => { name := rc.name, matcher := rc.trigger, enabled := rc.enabled })

/-- The action registry key `format!("rule_..._action", idx)` used by
both `initialize_actions` and the dispatch loop. -/
def actionKeyFor (idx : Nat) : String :=
  s!"rule_{idx}_action"

/-- `Engine::initialize_actions` from `engine/src/engine.rs` (lines
325-449): iterate over ALL rule configs (enabled or not) with
`enumerate`, registering each rule's configured action under the key
`rule_<idx>_action` where `idx` is the position in the CONFIG list. -/
def initializeActions (rules : List RuleConfigM) : List (String × Nat) :=
  rules.enum.map (fun p => (actionKeyFor p.1, p.2.action))

/-- Registry lookup (`ActionExecutor::execute`'s `self.actions.get`):
`none` models the "Action not found" configuration error. -/
def registryLookup (registry : List (String × Nat)) (key : String) : Option Nat :=
  match registry with
  | [] => none
  | (k, v) :: rest => if k = key then some v else registryLookup rest key

/-- One iteration of the dispatch loop body for a received event
(`engine/src/engine.rs` lines 72-86): enumerate the active rules, skip
disabled ones, and for each matching rule execute the action registered
under `rule_<idx>_action`, where `idx` is the rule's position in the
ACTIVE list.  Result: for each matching rule, the action key used and
the action found under it (`none` = action-not-found error). -/
def dispatchExecutions (rules : List ActiveRule) (registry : List (String × Nat))
    (e : Event) : List (String × Option Nat) :=
  (rules.enum.filter (fun p => p.2.enabled && p.2.matcher e)).map
    (fun p => (actionKeyFor p.1, registryLookup registry (actionKeyFor p.1)))

/-- The engine supervisor state (`engine/src/engine.rs` `Engine`),
restricted to the channel wiring and the rule/action snapshots.
Channels are identified by allocation order: `nextChannelId` counts
calls to `create_event_bus`.  `eventSender` is the sender stored in
`self.event_sender`; `pluginsChannel` is the channel whose sender the
running plugins were handed; `dispatchChannel` is the channel whose
receiver the most recently spawned dispatch task consumes, and
`dispatchSenderAlive` whether any sender half of that channel is still
held. -/
structure EngineM where
  nextChannelId : Nat
  eventSender : Option Nat
  pluginsChannel : Option Nat
  dispatchChannel : Option Nat
  dispatchSenderAlive : Bool
  rules : List ActiveRule
  registry : List (String × Nat)

/-- `create_event_bus` (`bus/src/lib.rs`): allocate a fresh channel. -/
def createEventBusId (next : Nat) : Nat × Nat :=
  (next, next + 1)

/-- `Engine::initialize` from `engine/src/engine.rs` (lines 46-94),
restricted to wiring: create the bus, store its sender, start the
plugins with clones of that sender, build rules and actions, and spawn
the dispatch task on that same bus's receiver. -/
def engineInitialize (cfg : ConfigM) (e : EngineM) : EngineM :=
  let p := createEventBusId e.nextChannelId
  { nextChannelId := p.2
    eventSender := some p.1
    pluginsChannel := some p.1
    dispatchChannel := some p.1
    dispatchSenderAlive := true
    rules := initializeRules cfg.rules
    registry := initializeActions cfg.rules }

/-- `Engine::reload` from `engine/src/engine.rs` (lines 471-535).  On
validation failure the engine is unchanged (`Err` returned).  On
success: plugins are stopped and re-started with a clone of the stored
`self.event_sender`; rules and actions are rebuilt from the new config;
then a dispatch task is spawned whose receiver comes from
`bus::create_event_bus(..).1` — a FRESH channel allocated on the spot,
whose sender half (`.0`) is dropped immediately. -/
def engineReload (cfg : ConfigM) (e : EngineM) : Except String EngineM :=
  if !cfg.validate then .error "validation failed"
  else
    let p := createEventBusId e.nextChannelId
    .ok { nextChannelId := p.2
          eventSender := e.eventSender
          pluginsChannel := e.eventSender
          dispatchChannel := some p.1
          dispatchSenderAlive := false
          rules := initializeRules cfg.rules
          registry := initializeActions cfg.rules }

/-! ### Helper lemmas -/

/-- Reading the globals after a `raw_set`: the written key returns the
new value, every other key is unaffected. -/
theorem rawGet_rawSet (g : LuaGlobals) (k k2 : String) (v : LuaValue) :
    rawGet (rawSet g k v) k2 = if k = k2 then v else rawGet g k2 := by
  induction g with
  | nil => simp [rawSet, rawGet]
  | cons hd tl ih =>
    obtain ⟨hk, hv⟩ := hd
    by_cases h1 : hk = k
    · subst h1
      by_cases h2 : hk = k2 <;> simp [rawSet, rawGet, h2]
    · by_cases h2 : hk = k2
      · subst h2
        have h1s : ¬ hk = hk → False := fun h => h rfl
        have hks : ¬ (k = hk) := fun h => h1 h.symm
        simp [rawSet, rawGet, h1, hks]
      · simp [rawSet, rawGet, h1, h2, ih]

/-- Running the composite loop past a block of successful child
outcomes only advances the results count. -/
theorem compositeLoop_append_ok (b : ErrorBehavior) (n : Nat)
    (pre l : List (Except ActionError ActionResult))
    (h : ∀ x ∈ pre, ∃ r, x = .ok r) :
    compositeLoop b n (pre ++ l) = compositeLoop b (n + pre.length) l := by
  induction pre generalizing n with
  | nil => simp
  | cons hd tl ih =>
    obtain ⟨r, hr⟩ := h hd (by simp)
    subst hr
    rw [List.cons_append]
    show compositeLoop b (n + 1) (tl ++ l) = _
    rw [ih (n + 1) (fun x hx => h x (by simp [hx]))]
    congr 1
    simp
    omega

/-! ### C4 — EventKindMatcher and kind discriminants -/

/-- The `EventKindMatcher` built by `Engine::create_rule` for a
`process_started` trigger (`engine/src/engine.rs` lines 288-294):
zeroed/empty variant content. -/
def c4ProcessMatcher : EventKindMatcher :=
  { kind := .processStarted 0 0 "" "" "" 0 "" }

/-- A process-start event as a kernel-trace producer would emit it. -/
def c4ProcessEvent : Event :=
  { id := 1
    timestamp := 10
    kind := .processStarted 4242 4 "notepad.exe" "C:/Windows/notepad.exe" "notepad.exe x" 1 "user"
    source := "process_monitor"
    metadata := [] }

/-- The `EventKindMatcher` built by `Engine::create_rule` for a
`registry_changed` trigger (`engine/src/engine.rs` lines 301-308). -/
def c4RegistryMatcher : EventKindMatcher :=
  { kind := .registryChanged "" "" none .modified }

/-- A registry-change event as the registry notifier would emit it. -/
def c4RegistryEvent : Event :=
  { id := 2
    timestamp := 11
    kind := .registryChanged "HKLM" "Software/Vendor" (some "Setting") .modified
    source := "registry_monitor"
    metadata := [] }

/-- C4: the claim is FALSE on the code.  `matches_event_kind` has no
arm for `ProcessStarted` (nor for the thread, file-I/O, network or
registry kinds), so its catch-all returns `false` even when matcher
kind and event kind share the same variant discriminant.  The matchers
that `Engine::create_rule` registers for `process_started` and
`registry_changed` triggers therefore never match any event,
contradicting the specified discriminant-matching semantics. -/
theorem c4_same_discriminant_process_and_registry_do_not_match :
    c4ProcessMatcher.kind.discriminant = c4ProcessEvent.kind.discriminant ∧
    c4ProcessMatcher.matches c4ProcessEvent = false ∧
    c4RegistryMatcher.kind.discriminant = c4RegistryEvent.kind.discriminant ∧
    c4RegistryMatcher.matches c4RegistryEvent = false := by
  refine ⟨rfl, rfl, rfl, rfl⟩

/-! ### C7 — sandbox nils out the dangerous globals -/

/-- C7: for every initial globals table of the per-execution VM,
`setup_sandbox` leaves each of `dofile`, `loadfile`, `load`, `require`,
`io` and `debug` bound to the null value at the moment the user script
is loaded. -/
theorem c7_dangerous_globals_are_nil_at_script_load (g : LuaGlobals) :
    rawGet (scriptVmGlobalsAtLoad g) "dofile" = .nil ∧
    rawGet (scriptVmGlobalsAtLoad g) "loadfile" = .nil ∧
    rawGet (scriptVmGlobalsAtLoad g) "load" = .nil ∧
    rawGet (scriptVmGlobalsAtLoad g) "require" = .nil ∧
    rawGet (scriptVmGlobalsAtLoad g) "io" = .nil ∧
    rawGet (scriptVmGlobalsAtLoad g) "debug" = .nil := by
  simp [scriptVmGlobalsAtLoad, setupSandbox, rawGet_rawSet]

/-! ### C8 — composite action error policies -/

/-- C8: when some child of a composite action returns an error (the
outcomes splitting as successes `pre`, the error, and a remainder),
policy `Continue` ignores the error and proceeds exactly as if the
failing child were absent; policy `Stop` returns that error
immediately; policy `SkipRemaining` stops and returns `Success`
summarizing the `pre.length` children completed before the error. -/
theorem c8_composite_error_policies (c : CompositeAction) (ev : Event)
    (pre rest : List (Except ActionError ActionResult)) (err : ActionError)
    (hsplit : c.actions.map (fun a => a ev) = pre ++ .error err :: rest)
    (hpre : ∀ x ∈ pre, ∃ r, x = .ok r) :
    (c.onError = .continue_ →
      c.execute ev = compositeLoop .continue_ 0 (pre ++ rest)) ∧
    (c.onError = .stop → c.execute ev = .error err) ∧
    (c.onError = .skipRemaining →
      c.execute ev = .ok (.success (some s!"Executed {pre.length} actions"))) := by
  unfold CompositeAction.execute
  rw [hsplit]
  rw [compositeLoop_append_ok _ _ _ _ hpre]
  refine ⟨fun hb => ?_, fun hb => ?_, fun hb => ?_⟩
  · rw [hb, compositeLoop_append_ok _ _ _ _ hpre]
    simp [compositeLoop]
  · rw [hb]
    simp [compositeLoop]
  · rw [hb]
    simp [compositeLoop]

/-- Concrete composite for the C8 witness: a succeeding child, a
timing-out child, then another succeeding child, under policy `Stop`. -/
def c8Composite : CompositeAction :=
  { actions :=
      [fun _ => .ok (.success none),
       fun _ => .error .timeout,
       fun _ => .ok (.success none)]
    onError := .stop }

/-- A timer event for the C8 witness. -/
def c8Event : Event :=
  { id := 3, timestamp := 0, kind := .timerTick, source := "timer", metadata := [] }

/-- Witness for C8: the `Stop` conjunct applied at a concrete
composite whose second child fails. -/
theorem c8_composite_error_policies_witness :
    c8Composite.execute c8Event = .error .timeout :=
  (c8_composite_error_policies c8Composite c8Event
    [.ok (.success none)] [.ok (.success none)] .timeout rfl
    (fun x hx => ⟨.success none, by simpa using hx⟩)).2.1 rfl

/-! ### C10 — non-table script return values -/

/-- C10: when the script's entry function returns without error and the
returned value is not a table, `ScriptAction::execute` reports
`Success` with no message, whatever the configured error policy:
`success` keeps its initial `true` and `message` stays empty, so the
failure branches (and the policy) are never consulted. -/
theorem c10_non_table_return_is_plain_success
    (onError : ScriptErrorBehavior) (v : LuaValue)
    (h : ∀ fields, v ≠ .table fields) :
    scriptInterpretResult onError (.ok v) = .ok (.success none) := by
  cases v <;> simp [scriptInterpretResult]
  exact absurd rfl (h _)

/-- Witness for C10: a script returning the integer `3` under policy
`Fail` still yields a message-free `Success`. -/
theorem c10_non_table_return_is_plain_success_witness :
    scriptInterpretResult .fail (.ok (.integer 3)) = .ok (.success none) :=
  c10_non_table_return_is_plain_success .fail (.integer 3) (by intro fields h; cases h)

/-! ### C1 — rule ordinals vs action registry keys -/

/-- A configuration with a disabled first rule: rule 0 (disabled)
carries action `10`, rule 1 (enabled, matches everything) carries
action `20`. -/
def c1Config : List RuleConfigM :=
  [{ name := "disabled_rule", enabled := false, trigger := fun _ => true, action := 10 },
   { name := "enabled_rule", enabled := true, trigger := fun _ => true, action := 20 }]

/-- A timer event accepted by the dispatch loop. -/
def c1Event : Event :=
  { id := 4, timestamp := 0, kind := .timerTick, source := "timer", metadata := [] }

/-- C1: the claim is FALSE on the code when a rule is disabled.
`initialize_rules` filters disabled rules out, so the dispatch loop
indexes `enabled_rule` at active ordinal 0 and looks up
`rule_0_action`; but `initialize_actions` registered actions by CONFIG
ordinal, so `rule_0_action` holds the disabled rule's action `10`, not
`enabled_rule`'s configured action `20`. -/
theorem c1_disabled_rule_misaligns_action_registry :
    dispatchExecutions (initializeRules c1Config) (initializeActions c1Config) c1Event
      = [("rule_0_action", some 10)] ∧
    (initializeRules c1Config).map (fun r => r.name) = ["enabled_rule"] ∧
    (c1Config.filter (fun rc => rc.enabled)).map (fun rc => rc.action) = [20] ∧
    (10 : Nat) ≠ 20 := by
  refine ⟨rfl, rfl, rfl, by decide⟩

/-! ### C2 — reload wiring of the dispatch task -/

/-- A minimal configuration that passes `Config::validate` (no rules,
no sources). -/
def c2Config : ConfigM :=
  { sourceNames := [], rules := [] }

/-- The engine before `initialize`: no channels allocated. -/
def c2Engine0 : EngineM :=
  { nextChannelId := 0
    eventSender := none
    pluginsChannel := none
    dispatchChannel := none
    dispatchSenderAlive := false
    rules := []
    registry := [] }

/-- C2: the claim is FALSE on the code.  After `initialize` the plugins
and the dispatch task share channel 0, but `reload` spawns the new
dispatch task on the receiver of a freshly created bus (channel 1)
whose sender half is dropped on the spot, while the re-started plugins
keep emitting into channel 0 — which the still-running OLD dispatch
task consumes.  Events produced after the reload therefore never reach
the new snapshot. -/
theorem c2_reload_dispatch_consumes_fresh_disconnected_bus :
    c2Config.validate = true ∧
    (engineReload c2Config (engineInitialize c2Config c2Engine0)).map
        (fun e => (e.pluginsChannel, e.dispatchChannel, e.dispatchSenderAlive))
      = .ok (some 0, some 1, false) ∧
    (some 0 : Option Nat) ≠ some 1 := by
  refine ⟨rfl, rfl, by decide⟩

/-! ### C3 — dropped events and events_dropped_total -/

/-- An event already queued on the bus, filling its capacity. -/
def c3QueuedEvent : Event :=
  { id := 5, timestamp := 0, kind := .timerTick, source := "timer", metadata := [] }

/-- A bus of capacity 1 that is already full. -/
def c3FullBus : EventBus :=
  { capacity := 1, queued := [c3QueuedEvent] }

/-- Counter state in which `events_dropped_total` currently reads 0. -/
def c3Metrics : CounterState :=
  [("events_dropped_total", 0)]

/-- The file event the watcher callback tries to emit into the full
bus. -/
def c3DroppedEvent : Event :=
  { id := 6
    timestamp := 1
    kind := .fileCreated { toStr := some "C:/t/a.txt", fileName := some { toStr := some "a.txt" } }
    source := "file_watcher"
    metadata := [("watcher_path", "C:/t/a.txt")] }

/-- C3: the claim is FALSE on the code.  When `try_send` reports a full
buffer, the file watcher callback only logs the failure: the event is
dropped but the counter state is untouched, so `events_dropped_total`
still reads 0 — whereas `record_event_dropped`, the function the
metrics crate provides for exactly this purpose, would have raised it
to 1 as the claim requires. -/
theorem c3_drop_on_full_bus_leaves_counter_unchanged :
    fileWatcherEmit c3FullBus c3Metrics c3DroppedEvent = (c3FullBus, c3Metrics, true) ∧
    counterValue c3Metrics "events_dropped_total" = some 0 ∧
    counterValue (recordEventDropped c3Metrics) "events_dropped_total" = some 1 := by
  refine ⟨rfl, rfl, rfl⟩

/-! ### C5 — sandbox path allow-list -/

/-- The allow-listed roots of `is_path_allowed`: current working
directory, temp directory and user documents directory (all resolved
as absolute paths by the OS). -/
def c5AllowedDirs : List (Option FsPath) :=
  [some { absolute := true, components := ["home", "user", "project"] },
   some { absolute := true, components := ["tmp"] },
   some { absolute := true, components := ["home", "user", "Documents"] }]

/-- A relative path escaping upward out of every allow-listed root. -/
def c5RelativeEscape : FsPath :=
  { absolute := false, components := ["..", "..", "etc", "passwd"] }

/-- C5: the claim is FALSE on the code for relative paths.
`c5RelativeEscape` starts with none of the allow-listed roots, yet
`is_path_allowed` accepts it through the final
"also allow relative paths" branch, and `fs.delete` proceeds to the
`fs::remove_file` call. -/
theorem c5_counterexample_relative_path_outside_roots_allowed :
    (c5AllowedDirs.filterMap id).all (fun a => !c5RelativeEscape.startsWith a) = true ∧
    isPathAllowed c5AllowedDirs c5RelativeEscape = true ∧
    fsDelete c5AllowedDirs c5RelativeEscape true = (true, true) := by
  refine ⟨rfl, rfl, rfl⟩

/-- C5 (amended): for ABSOLUTE paths the claim holds — an absolute path
that starts with none of the allow-listed roots is rejected by
`is_path_allowed`, and `fs.delete` / `fs.move` return `false` without
reaching the OS call; relative paths, by contrast, are always
accepted. -/
theorem c5_amended_absolute_path_outside_roots_rejected
    (allowedDirs : List (Option FsPath)) (path other : FsPath) (opOk : Bool)
    (habs : path.absolute = true)
    (hout : ∀ a ∈ allowedDirs.filterMap id, path.startsWith a = false) :
    isPathAllowed allowedDirs path = false ∧
    fsDelete allowedDirs path opOk = (false, false) ∧
    fsMove allowedDirs path other opOk = (false, false) ∧
    fsMove allowedDirs other path opOk = (false, false) := by
  have hany : (allowedDirs.filterMap id).any (fun a => path.startsWith a) = false := by
    rw [List.any_eq_false]
    intro a ha
    simp [hout a ha]
  have hdisallowed : isPathAllowed allowedDirs path = false := by
    simp [isPathAllowed, hany, FsPath.isRelative, habs]
  refine ⟨hdisallowed, ?_, ?_, ?_⟩ <;> simp [fsDelete, fsMove, hdisallowed]

/-- An absolute path outside every allow-listed root. -/
def c5AbsOutside : FsPath :=
  { absolute := true, components := ["windows", "system32", "config"] }

/-- A path under the temp root, used as the other end of the move. -/
def c5TmpFile : FsPath :=
  { absolute := true, components := ["tmp", "x.txt"] }

/-- Witness for the amended C5 at concrete inputs. -/
theorem c5_amended_absolute_path_outside_roots_rejected_witness :
    isPathAllowed c5AllowedDirs c5AbsOutside = false ∧
    fsDelete c5AllowedDirs c5AbsOutside true = (false, false) ∧
    fsMove c5AllowedDirs c5AbsOutside c5TmpFile true = (false, false) ∧
    fsMove c5AllowedDirs c5TmpFile c5AbsOutside true = (false, false) :=
  c5_amended_absolute_path_outside_roots_rejected
    c5AllowedDirs c5AbsOutside c5TmpFile true rfl (by decide)

/-! ### C6 — non-UTF-8 paths in file glob matching -/

/-- A `FilePatternMatcher` for `file_created` with the filename glob
configured (its predicate standing for a compiled `*.txt`). -/
def c6Matcher : FilePatternMatcher :=
  { eventType := .created
    pathPattern := none
    filePattern := some { matchesStr := fun s => s.endsWith ".txt" } }

/-- A created-file event whose path and final component are not valid
UTF-8. -/
def c6Event : Event :=
  { id := 7
    timestamp := 0
    kind := .fileCreated { toStr := none, fileName := some { toStr := none } }
    source := "file_watcher"
    metadata := [] }

/-- C6: the claim is FALSE on the code.  With a filename glob
configured and a non-UTF-8 final component, `matches` returns `true`:
the `if let` chain skips the glob check instead of treating the
component as a non-match. -/
theorem c6_counterexample_non_utf8_filename_still_matches :
    c6Matcher.matches c6Event = true := by
  rfl

/-- `trigger → file event type` correspondence used to state the
amended C6 uniformly over the three file kinds. -/
def fileKindEventType : EventKind → Option FileEventType
  | .fileCreated _ => some .created
  | .fileModified _ => some .modified
  | .fileDeleted _ => some .deleted
  | _ => none

/-- The path carried by a file event kind. -/
def fileKindPath : EventKind → Option OsPathM
  | .fileCreated p => some p
  | .fileModified p => some p
  | .fileDeleted p => some p
  | _ => none

/-- C6 (amended): a non-UTF-8 path component causes the corresponding
glob check to be SKIPPED (treated as vacuously satisfied), not failed:
for any file event whose full path is non-UTF-8 and whose final
component is absent or non-UTF-8, the matcher's verdict is exactly the
event-type comparison, whatever globs are configured. -/
theorem c6_amended_non_utf8_component_skips_glob_check
    (m : FilePatternMatcher) (e : Event) (p : OsPathM) (ft : FileEventType)
    (hft : fileKindEventType e.kind = some ft)
    (hp : fileKindPath e.kind = some p)
    (hstr : p.toStr = none)
    (hfn : ∀ c, p.fileName = some c → c.toStr = none) :
    m.matches e = (decide (m.eventType = .any) || decide (m.eventType = ft)) := by
  have hpc : m.pathCheck p = true := by
    unfold FilePatternMatcher.pathCheck
    cases m.pathPattern <;> simp [hstr]
  have hfc : m.fileCheck p = true := by
    unfold FilePatternMatcher.fileCheck
    cases m.filePattern
    · rfl
    · cases hfn2 : p.fileName
      · simp
      · simp [hfn _ hfn2]
  obtain ⟨i, t, k, src, md⟩ := e
  simp only at hft hp ⊢
  cases k <;> simp [fileKindEventType] at hft <;>
    simp [fileKindPath] at hp <;> subst hft <;> subst hp <;>
    cases hmt : m.eventType <;>
    simp [FilePatternMatcher.matches, FilePatternMatcher.matchesFile, hmt, hpc, hfc]

/-- Witness for the amended C6: filename and path globs both
configured, non-UTF-8 path, event type matching — the matcher returns
`true`. -/
theorem c6_amended_non_utf8_component_skips_glob_check_witness :
    c6Matcher.matches c6Event = (decide (c6Matcher.eventType = .any) ||
      decide (c6Matcher.eventType = .created)) :=
  c6_amended_non_utf8_component_skips_glob_check c6Matcher c6Event
    { toStr := none, fileName := some { toStr := none } } .created
    rfl rfl rfl (by intro c hc; cases hc; rfl)

/-! ### C9 — canonical metric keys -/

/-- The canonical key as the CLAIM words it: label pairs sorted by
label KEY, then formatted. -/
def claimKeyLabelsSortedByKey (name : String) (labels : List (String × String)) : String :=
  if labels.isEmpty then name
  else
    name ++ ":\x7b" ++
      ",".intercalate ((sortLe (fun p q => strLeB p.1 q.1) labels).map fmtLabel) ++ "\x7d"

/-- The canonical key as the code actually behaves, worded from the
spec side: label pairs sorted by their formatted `k=v` string, then
formatted. -/
def amendedKeyLabelsSortedByPair (name : String) (labels : List (String × String)) : String :=
  if labels.isEmpty then name
  else
    name ++ ":\x7b" ++
      ",".intercalate ((sortLe (fun p q => strLeB (fmtLabel p) (fmtLabel q)) labels).map fmtLabel) ++ "\x7d"

/-- Label mapping on which key order and `k=v`-string order disagree:
`"a" < "a1"` as keys, but `"a1=w" < "a=v"` as formatted parts (the
digit `1` sorts before `=`). -/
def c9Labels : List (String × String) :=
  [("a", "v"), ("a1", "w")]

/-- C9: the claim is FALSE on the code.  `build_key` sorts the
formatted `k=v` strings, not the keys; on `c9Labels` the code yields
the parts in the order `a1=w,a=v` while sorting by key would yield
`a=v,a1=w`. -/
theorem c9_counterexample_sorted_by_pair_not_by_key :
    buildKey "m" c9Labels = "m:\x7ba1=w,a=v\x7d" ∧
    claimKeyLabelsSortedByKey "m" c9Labels = "m:\x7ba=v,a1=w\x7d" ∧
    buildKey "m" c9Labels ≠ claimKeyLabelsSortedByKey "m" c9Labels := by
  refine ⟨by decide, by decide, by decide⟩

/-- Insertion commutes with mapping the comparison through `f`. -/
theorem insertLe_map {α β : Type} (f : α → β) (le : β → β → Bool) (a : α) (l : List α) :
    insertLe le (f a) (l.map f) = (insertLe (fun x y => le (f x) (f y)) a l).map f := by
  induction l with
  | nil => rfl
  | cons b bs ih =>
    simp only [List.map_cons, insertLe]
    by_cases h : le (f a) (f b) <;> simp [h, ih]

/-- Sorting commutes with mapping the comparison through `f`. -/
theorem sortLe_map {α β : Type} (f : α → β) (le : β → β → Bool) (l : List α) :
    sortLe le (l.map f) = (sortLe (fun x y => le (f x) (f y)) l).map f := by
  induction l with
  | nil => rfl
  | cons b bs ih => simp only [List.map_cons, sortLe, ih, insertLe_map]

/-- C9 (amended): for every metric name and label mapping, the key is
the bare name when the labels are empty, and otherwise
`name:` followed by the formatted `k=v` parts in braces, with the label
pairs sorted by their formatted `k=v` STRING (which coincides with
sorting by key except when one key extends another past the `=`
separator's position in the character order). -/
theorem c9_amended_key_sorted_by_formatted_pair
    (name : String) (labels : List (String × String)) :
    buildKey name labels = amendedKeyLabelsSortedByPair name labels := by
  unfold buildKey amendedKeyLabelsSortedByPair
  by_cases h : labels.isEmpty <;> simp [h, sortLe_map]

end WinEventEngine
